import Mathlib

/-!
Verification of `CopyFile` (src/CopyFile.go).

The Go function copies one file's bytes and permission mode to a
destination path:

1. `os.Open(srcPath)` — open the source read-only (fails if missing);
   `defer src.Close()`.
2. `src.Stat()` — capture the source metadata (mode).
3. `os.OpenFile(dstPath, O_CREATE|O_WRONLY|O_TRUNC, srcInfo.Mode())` —
   create or truncate the destination; `defer dst.Close()`.
4. `io.Copy(dst, src)` — stream the bytes.
5. `os.Chmod(dstPath, srcInfo.Mode())` — re-apply the source mode.
6. `dst.Sync()` — flush to stable storage.
Each failing step returns its error at once; the deferred closes run on
every exit path and their results are discarded.

The embedding models the filesystem as a partial map from paths to files
(byte list plus mode).  Fallible environment interactions that do not
depend on the modelled filesystem state (stat failure, destination-open
failure such as a missing parent directory, mid-copy I/O error, chmod
failure, sync failure, close failures) are injected through an `Env` of
optional error codes; error codes are abstract naturals so that
"propagates unchanged" is expressible.  `Env.umask` models the process
umask that the OS applies to the creation mode in step 3 (and that
`Chmod` in step 5 bypasses).  `CopyFile` returns the result, the final
filesystem, and the trace of successfully performed operations in
execution order (closes are always recorded when the handle was
acquired, since the deferred closes always run).
-/

/-- A file: its byte content and its permission mode. -/
structure File where
  content : List Nat
  mode : Nat
deriving DecidableEq, Repr

/-- The filesystem: a partial map from paths to files. -/
def FS : Type := String → Option File

/-- Events recorded in execution order: the successfully performed steps
of `CopyFile`, plus the deferred closes (which always run once the
corresponding handle was acquired). -/
inductive Ev where
  | openSrc | closeSrc | statSrc | openDst | closeDst | copy | chmod | sync
deriving DecidableEq, Repr

/-- Injected environment faults for the interactions whose failure does
not depend on the modelled filesystem map, plus the process umask.
`copyErr` carries the error code and the number of bytes written to the
destination before the mid-copy failure.  The close errors exist in the
environment but are discarded by `CopyFile`, exactly as the Go code
discards the results of the deferred `Close` calls. -/
structure Env where
  openSrcErr : Option Nat
  statErr : Option Nat
  openDstErr : Option Nat
  copyErr : Option (Nat × Nat)
  chmodErr : Option Nat
  syncErr : Option Nat
  closeSrcErr : Option Nat
  closeDstErr : Option Nat
  umask : Nat
deriving DecidableEq, Repr

/-- The error code `os.Open` yields for a nonexistent source path. -/
def enoent : Nat := 2

/-- Bitwise complement of a mode within the low 12 permission bits
(all bits of 4095 are set, so the subtraction never borrows). -/
def compl12 (u : Nat) : Nat := 4095 - u % 4096

/-- The content a read of the whole file at `p` yields (the branches of
`CopyFile` only read paths that are present). -/
def readAll (fs : FS) (p : String) : List Nat :=
  match fs p with
  | some f => f.content
  | none => []

/-- The permission mode of the file at `p`, if present. -/
def modeOf (fs : FS) (p : String) : Option Nat :=
  (fs p).map File.mode

/-- `os.OpenFile(p, O_CREATE|O_WRONLY|O_TRUNC, perm)`: an existing file
is truncated to empty and keeps its mode; an absent file is created
empty with the requested mode as masked by the process umask. -/
def openDstTrunc (fs : FS) (p : String) (perm umask : Nat) : FS :=
  fun q =>
    if q = p then
      match fs p with
      | some f => some { f with content := [] }
      | none => some { content := [], mode := Nat.land perm (compl12 umask) }
    else fs q

/-- Append `data` to the file at `p` (the destination handle writes at
the end of the just-truncated file). -/
def writeBytes (fs : FS) (p : String) (data : List Nat) : FS :=
  fun q =>
    if q = p then
      match fs p with
      | some f => some { f with content := f.content ++ data }
      | none => none
    else fs q

/-- `os.Chmod(p, m)`: set the mode of the file at `p` exactly (no umask). -/
def chmodFS (fs : FS) (p : String) (m : Nat) : FS :=
  fun q =>
    if q = p then
      match fs p with
      | some f => some { f with mode := m }
      | none => none
    else fs q

/-- Shallow embedding of `CopyFile(srcPath, dstPath)` from
src/CopyFile.go.  Returns the result (`ok` for Go's `nil`, `error e`
for a returned error `e`), the final filesystem, and the event trace.
The source handle reads through the filesystem current at copy time, so
a destination open of the same path truncates what the copy then reads,
exactly as with two OS handles on one file. -/
def CopyFile (env : Env) (fs : FS) (srcPath dstPath : String) :
    Except Nat Unit × FS × List Ev :=
  -- step 1: src, err := os.Open(srcPath)
  match env.openSrcErr with
  | some e => (.error e, fs, [])
  | none =>
  match fs srcPath with
  | none => (.error enoent, fs, [])
  | some srcFile =>
  -- defer src.Close() is now armed
  -- step 2: srcInfo, err := src.Stat()
  match env.statErr with
  | some e => (.error e, fs, [.openSrc, .closeSrc])
  | none =>
  let srcMode := srcFile.mode
  -- step 3: dst, err := os.OpenFile(dstPath, O_CREATE|O_WRONLY|O_TRUNC, srcMode)
  match env.openDstErr with
  | some e => (.error e, fs, [.openSrc, .statSrc, .closeSrc])
  | none =>
  let fs1 := openDstTrunc fs dstPath srcMode env.umask
  -- defer dst.Close() is now armed
  -- step 4: io.Copy(dst, src) — reads the source through the current state
  let data := readAll fs1 srcPath
  match env.copyErr with
  | some (e, n) =>
      (.error e, writeBytes fs1 dstPath (data.take n),
       [.openSrc, .statSrc, .openDst, .closeDst, .closeSrc])
  | none =>
  let fs2 := writeBytes fs1 dstPath data
  -- step 5: os.Chmod(dstPath, srcMode)
  match env.chmodErr with
  | some e =>
      (.error e, fs2, [.openSrc, .statSrc, .openDst, .copy, .closeDst, .closeSrc])
  | none =>
  let fs3 := chmodFS fs2 dstPath srcMode
  -- step 6: dst.Sync()
  match env.syncErr with
  | some e =>
      (.error e, fs3,
       [.openSrc, .statSrc, .openDst, .copy, .chmod, .closeDst, .closeSrc])
  | none =>
  (.ok (), fs3,
   [.openSrc, .statSrc, .openDst, .copy, .chmod, .sync, .closeDst, .closeSrc])

/-! ### Shared helper lemmas and concrete fixtures -/

/-- Environment with no injected faults and umask 0. -/
def envOK : Env := ⟨none, none, none, none, none, none, none, none, 0⟩

/-- A filesystem holding one file at path a with bytes [1,2,3], mode 420. -/
def fsA : FS := fun p => if p = "a" then some ⟨[1, 2, 3], 420⟩ else none

/-- Environment whose only fault is a failing sync (error code 7). -/
def envSyncFail : Env := ⟨none, none, none, none, none, some 7, none, none, 0⟩

/-- Environment whose only fault is a failing source open (error code 3). -/
def envSrcFail : Env := ⟨some 3, none, none, none, none, none, none, none, 0⟩

/-- Environment whose only fault is a failing stat (error code 5). -/
def envStatFail : Env := ⟨none, some 5, none, none, none, none, none, none, 0⟩

/-- Environment where both deferred closes fail (error code 9). -/
def envCloseFail : Env := ⟨none, none, none, none, none, none, some 9, some 9, 0⟩

/-- Specification-side characterization, for comparison with `CopyFile`:
the error of the first failing step in the spec's step order (source
open, source existence, stat, destination open, stream copy, chmod,
sync), or `none` when every step succeeds. -/
def specFirstFailure (env : Env) (fs : FS) (srcPath : String) : Option Nat :=
  env.openSrcErr
    <|> (match fs srcPath with | none => some enoent | some _ => none)
    <|> env.statErr
    <|> env.openDstErr
    <|> env.copyErr.map Prod.fst
    <|> env.chmodErr
    <|> env.syncErr

lemma copyFile_ok_inversion (env : Env) (fs : FS) (s d : String)
    (hok : (CopyFile env fs s d).1 = .ok ()) :
    env.openSrcErr = none ∧ env.statErr = none ∧ env.openDstErr = none
    ∧ env.copyErr = none ∧ env.chmodErr = none ∧ env.syncErr = none
    ∧ ∃ f, fs s = some f := by
  obtain ⟨o1, o2, o3, o4, o5, o6, c1, c2, u⟩ := env
  rcases o1 with _ | e1 <;> rcases h : fs s with _ | f <;>
    rcases o2 with _ | e2 <;> rcases o3 with _ | e3 <;>
    rcases o4 with _ | ⟨e4, n4⟩ <;> rcases o5 with _ | e5 <;>
    rcases o6 with _ | e6 <;>
    simp_all [CopyFile]

lemma copyFile_eval_ok (env : Env) (fs : FS) (s d : String) (f : File)
    (h1 : env.openSrcErr = none) (h2 : env.statErr = none)
    (h3 : env.openDstErr = none) (h4 : env.copyErr = none)
    (h5 : env.chmodErr = none) (h6 : env.syncErr = none)
    (hf : fs s = some f) :
    CopyFile env fs s d =
      (.ok (),
       chmodFS (writeBytes (openDstTrunc fs d f.mode env.umask) d
         (readAll (openDstTrunc fs d f.mode env.umask) s)) d f.mode,
       [.openSrc, .statSrc, .openDst, .copy, .chmod, .sync, .closeDst,
        .closeSrc]) := by
  simp only [CopyFile, h1, h2, h3, h4, h5, h6, hf]

lemma openDstTrunc_ne (fs : FS) (p : String) (perm u : Nat) (q : String)
    (h : q ≠ p) : openDstTrunc fs p perm u q = fs q := by
  simp [openDstTrunc, h]

lemma writeBytes_ne (fs : FS) (p : String) (data : List Nat) (q : String)
    (h : q ≠ p) : writeBytes fs p data q = fs q := by
  simp [writeBytes, h]

lemma chmodFS_ne (fs : FS) (p : String) (m : Nat) (q : String)
    (h : q ≠ p) : chmodFS fs p m q = fs q := by
  simp [chmodFS, h]

/-! ### Claims -/

/-- C1, counterexample: when source and destination are the same existing
path, `CopyFile` reports success, yet the final content at the
destination is not the content the source had at the time of the call —
the bytes [1,2,3] are lost. -/
theorem copyFile_C1_cex :
    (CopyFile envOK fsA "a" "a").1 = .ok ()
    ∧ ¬ readAll (CopyFile envOK fsA "a" "a").2.1 "a" = readAll fsA "a" := by
  refine ⟨rfl, ?_⟩
  decide

/-- C1 (amended: provided the source and destination paths differ): if
`CopyFile` returns success, the destination's final content is
byte-for-byte the source's content at the time of the call — for any
size, the empty file included — and the destination's final mode equals
the source's mode at the time of the call. -/
theorem copyFile_C1_content_and_mode (env : Env) (fs : FS) (s d : String)
    (hne : s ≠ d) (hok : (CopyFile env fs s d).1 = .ok ()) :
    readAll (CopyFile env fs s d).2.1 d = readAll fs s
    ∧ modeOf (CopyFile env fs s d).2.1 d = modeOf fs s := by
  obtain ⟨h1, h2, h3, h4, h5, h6, f, hf⟩ :=
    copyFile_ok_inversion env fs s d hok
  rw [copyFile_eval_ok env fs s d f h1 h2 h3 h4 h5 h6 hf]
  cases hd : fs d <;>
    simp [readAll, modeOf, chmodFS, writeBytes, openDstTrunc, hne, hf, hd]

/-- C1 witness: copying a to a distinct path b succeeds and the theorem
applies, giving identical content and mode. -/
theorem copyFile_C1_witness :
    readAll (CopyFile envOK fsA "a" "b").2.1 "b" = readAll fsA "a"
    ∧ modeOf (CopyFile envOK fsA "a" "b").2.1 "b" = modeOf fsA "a" :=
  copyFile_C1_content_and_mode envOK fsA "a" "b" (by decide) rfl

/-- C3: whenever `CopyFile` returns success — for every environment
(any umask) and every prior state of the destination — the destination's
final on-disk mode equals the source's mode captured at inspection
time. -/
theorem copyFile_C3_mode (env : Env) (fs : FS) (s d : String)
    (hok : (CopyFile env fs s d).1 = .ok ()) :
    ∃ f, fs s = some f ∧ modeOf (CopyFile env fs s d).2.1 d = some f.mode := by
  obtain ⟨h1, h2, h3, h4, h5, h6, f, hf⟩ :=
    copyFile_ok_inversion env fs s d hok
  refine ⟨f, hf, ?_⟩
  rw [copyFile_eval_ok env fs s d f h1 h2 h3 h4 h5 h6 hf]
  cases hd : fs d <;>
    simp [modeOf, chmodFS, writeBytes, openDstTrunc, hd]

/-- C3 witness: a successful concrete copy, destination mode 420 as the
source's. -/
theorem copyFile_C3_witness :
    ∃ f, fsA "a" = some f
      ∧ modeOf (CopyFile envOK fsA "a" "b").2.1 "b" = some f.mode :=
  copyFile_C3_mode envOK fsA "a" "b" rfl

/-- C9: calling `CopyFile` on one and the same existing path, with no
environment fault injected, truncates the file before any byte is read:
the stream copy reads zero bytes, the call reports success, and the file
ends up empty (its original content lost), keeping its mode. -/
theorem copyFile_C9_same_path (env : Env) (fs : FS) (p : String) (f : File)
    (h1 : env.openSrcErr = none) (h2 : env.statErr = none)
    (h3 : env.openDstErr = none) (h4 : env.copyErr = none)
    (h5 : env.chmodErr = none) (h6 : env.syncErr = none)
    (hf : fs p = some f) :
    readAll (openDstTrunc fs p f.mode env.umask) p = []
    ∧ (CopyFile env fs p p).1 = .ok ()
    ∧ (CopyFile env fs p p).2.1 p = some ⟨[], f.mode⟩ := by
  rw [copyFile_eval_ok env fs p p f h1 h2 h3 h4 h5 h6 hf]
  simp [readAll, chmodFS, writeBytes, openDstTrunc, hf]

/-- C9 witness: copying a onto itself empties the file [1,2,3] and
reports success. -/
theorem copyFile_C9_witness :
    readAll (openDstTrunc fsA "a" 420 envOK.umask) "a" = []
    ∧ (CopyFile envOK fsA "a" "a").1 = .ok ()
    ∧ (CopyFile envOK fsA "a" "a").2.1 "a" = some ⟨[], 420⟩ :=
  copyFile_C9_same_path envOK fsA "a" ⟨[1, 2, 3], 420⟩ rfl rfl rfl rfl rfl rfl
    rfl

/-- C2: a nil return is produced only after a performed and successful
sync of the destination — success implies no sync fault was pending and
the sync event is in the trace — and when every earlier step succeeds
but the sync fails, `CopyFile` returns exactly that sync failure. -/
theorem copyFile_C2_sync_before_ok (env : Env) (fs : FS) (s d : String) :
    ((CopyFile env fs s d).1 = .ok () →
      env.syncErr = none ∧ Ev.sync ∈ (CopyFile env fs s d).2.2)
    ∧ (∀ e, env.openSrcErr = none → env.statErr = none →
        env.openDstErr = none → env.copyErr = none → env.chmodErr = none →
        env.syncErr = some e → (fs s).isSome →
        (CopyFile env fs s d).1 = .error e) := by
  constructor
  · intro hok
    obtain ⟨h1, h2, h3, h4, h5, h6, f, hf⟩ :=
      copyFile_ok_inversion env fs s d hok
    refine ⟨h6, ?_⟩
    rw [copyFile_eval_ok env fs s d f h1 h2 h3 h4 h5 h6 hf]
    simp
  · intro e h1 h2 h3 h4 h5 h6 hsome
    obtain ⟨f, hf⟩ := Option.isSome_iff_exists.mp hsome
    simp [CopyFile, h1, h2, h3, h4, h5, h6, hf]

/-- C2 witness: a concrete successful copy has a performed sync, and the
same copy with only a sync fault (code 7) returns error 7. -/
theorem copyFile_C2_witness :
    (envOK.syncErr = none ∧ Ev.sync ∈ (CopyFile envOK fsA "a" "b").2.2)
    ∧ (CopyFile envSyncFail fsA "a" "b").1 = .error 7 :=
  ⟨(copyFile_C2_sync_before_ok envOK fsA "a" "b").1 rfl,
   (copyFile_C2_sync_before_ok envSyncFail fsA "a" "b").2 7 rfl rfl rfl rfl
     rfl rfl rfl⟩

/-- C4: `CopyFile` runs its steps in order with early abort: it returns
nil exactly when no step fails, returns the first failing step's error
value unchanged, and once a step fails no later step appears in the
trace (a source-open fault yields an empty trace; a stat fault precludes
the destination open; a destination-open fault precludes the copy; a
copy fault precludes chmod and sync; a chmod fault precludes sync). -/
theorem copyFile_C4_sequencing (env : Env) (fs : FS) (s d : String) :
    ((CopyFile env fs s d).1 = .ok () ↔ specFirstFailure env fs s = none)
    ∧ (∀ e, specFirstFailure env fs s = some e →
        (CopyFile env fs s d).1 = .error e)
    ∧ (env.openSrcErr ≠ none → (CopyFile env fs s d).2.2 = [])
    ∧ (env.statErr ≠ none → Ev.openDst ∉ (CopyFile env fs s d).2.2)
    ∧ (env.openDstErr ≠ none → Ev.copy ∉ (CopyFile env fs s d).2.2)
    ∧ (env.copyErr ≠ none → Ev.chmod ∉ (CopyFile env fs s d).2.2
        ∧ Ev.sync ∉ (CopyFile env fs s d).2.2)
    ∧ (env.chmodErr ≠ none → Ev.sync ∉ (CopyFile env fs s d).2.2) := by
  obtain ⟨o1, o2, o3, o4, o5, o6, c1, c2, u⟩ := env
  rcases o1 with _ | e1 <;> rcases h : fs s with _ | f <;>
    rcases o2 with _ | e2 <;> rcases o3 with _ | e3 <;>
    rcases o4 with _ | ⟨e4, n4⟩ <;> rcases o5 with _ | e5 <;>
    rcases o6 with _ | e6 <;>
    simp_all [CopyFile, specFirstFailure]

/-- C4 witness: with only a stat fault (code 5), the claim instance —
result is error 5 and the destination is never opened. -/
theorem copyFile_C4_witness :
    (CopyFile envStatFail fsA "a" "b").1 = .error 5
    ∧ Ev.openDst ∉ (CopyFile envStatFail fsA "a" "b").2.2 :=
  ⟨(copyFile_C4_sequencing envStatFail fsA "a" "b").2.1 5 rfl,
   (copyFile_C4_sequencing envStatFail fsA "a" "b").2.2.2.1 (by decide)⟩

/-- C5: when the source cannot be opened — an injected open fault, or a
nonexistent source path — `CopyFile` returns that source-open error and
the whole filesystem is untouched: no destination file is created, and
an existing destination keeps its content and mode. -/
theorem copyFile_C5_src_open_fail (env : Env) (fs : FS) (s d : String) :
    (∀ e, env.openSrcErr = some e →
      (CopyFile env fs s d).1 = .error e ∧ (CopyFile env fs s d).2.1 = fs)
    ∧ (env.openSrcErr = none → fs s = none →
      (CopyFile env fs s d).1 = .error enoent
      ∧ (CopyFile env fs s d).2.1 = fs) := by
  constructor
  · intro e he
    simp [CopyFile, he]
  · intro h1 h2
    simp [CopyFile, h1, h2]

/-- C5 witness: an injected source-open fault (code 3) and a missing
source path both return the open error and leave the filesystem as it
was. -/
theorem copyFile_C5_witness :
    ((CopyFile envSrcFail fsA "a" "b").1 = .error 3
      ∧ (CopyFile envSrcFail fsA "a" "b").2.1 = fsA)
    ∧ ((CopyFile envOK fsA "z" "b").1 = .error enoent
      ∧ (CopyFile envOK fsA "z" "b").2.1 = fsA) :=
  ⟨(copyFile_C5_src_open_fail envSrcFail fsA "a" "b").1 3 rfl,
   (copyFile_C5_src_open_fail envOK fsA "z" "b").2 rfl rfl⟩

/-- C6: the destination handle is acquired only after the source is
opened and statted: whenever the destination open is in the trace, the
trace begins with source open, then stat, then destination open; and if
the source open or the stat fails (fault, or missing source), the
destination is never opened. -/
theorem copyFile_C6_dst_after_src (env : Env) (fs : FS) (s d : String) :
    (Ev.openDst ∈ (CopyFile env fs s d).2.2 →
      ∃ rest, (CopyFile env fs s d).2.2
        = Ev.openSrc :: Ev.statSrc :: Ev.openDst :: rest)
    ∧ ((env.openSrcErr ≠ none ∨ fs s = none ∨ env.statErr ≠ none) →
      Ev.openDst ∉ (CopyFile env fs s d).2.2) := by
  obtain ⟨o1, o2, o3, o4, o5, o6, c1, c2, u⟩ := env
  rcases o1 with _ | e1 <;> rcases h : fs s with _ | f <;>
    rcases o2 with _ | e2 <;> rcases o3 with _ | e3 <;>
    rcases o4 with _ | ⟨e4, n4⟩ <;> rcases o5 with _ | e5 <;>
    rcases o6 with _ | e6 <;>
    simp_all [CopyFile]

/-- C6 witness: in a concrete successful copy the destination open is in
the trace and the trace starts source open, stat, destination open; and
with a stat fault the destination open is absent. -/
theorem copyFile_C6_witness :
    (∃ rest, (CopyFile envOK fsA "a" "b").2.2
      = Ev.openSrc :: Ev.statSrc :: Ev.openDst :: rest)
    ∧ Ev.openDst ∉ (CopyFile envStatFail fsA "a" "b").2.2 :=
  ⟨(copyFile_C6_dst_after_src envOK fsA "a" "b").1 (by decide),
   (copyFile_C6_dst_after_src envStatFail fsA "a" "b").2
     (Or.inr (Or.inr (by decide)))⟩

/-- C7: acquired-then-always-released — on every exit path, if the
source handle was acquired its close is in the trace, and if the
destination handle was acquired its close is in the trace. -/
theorem copyFile_C7_handles_released (env : Env) (fs : FS) (s d : String) :
    (Ev.openSrc ∈ (CopyFile env fs s d).2.2 →
      Ev.closeSrc ∈ (CopyFile env fs s d).2.2)
    ∧ (Ev.openDst ∈ (CopyFile env fs s d).2.2 →
      Ev.closeDst ∈ (CopyFile env fs s d).2.2) := by
  obtain ⟨o1, o2, o3, o4, o5, o6, c1, c2, u⟩ := env
  rcases o1 with _ | e1 <;> rcases h : fs s with _ | f <;>
    rcases o2 with _ | e2 <;> rcases o3 with _ | e3 <;>
    rcases o4 with _ | ⟨e4, n4⟩ <;> rcases o5 with _ | e5 <;>
    rcases o6 with _ | e6 <;>
    simp_all [CopyFile]

/-- C7 witness: in a concrete successful copy both handles were acquired
and both closes are in the trace. -/
theorem copyFile_C7_witness :
    Ev.closeSrc ∈ (CopyFile envOK fsA "a" "b").2.2
    ∧ Ev.closeDst ∈ (CopyFile envOK fsA "a" "b").2.2 :=
  ⟨(copyFile_C7_handles_released envOK fsA "a" "b").1 (by decide),
   (copyFile_C7_handles_released envOK fsA "a" "b").2 (by decide)⟩

/-- C8: frame — every call of `CopyFile`, successful or failing, leaves
every path other than the destination path exactly as it was; in
particular a source at a different path keeps its content and mode. -/
theorem copyFile_C8_frame (env : Env) (fs : FS) (s d p : String)
    (hp : p ≠ d) : (CopyFile env fs s d).2.1 p = fs p := by
  obtain ⟨o1, o2, o3, o4, o5, o6, c1, c2, u⟩ := env
  rcases o1 with _ | e1 <;> rcases h : fs s with _ | f <;>
    rcases o2 with _ | e2 <;> rcases o3 with _ | e3 <;>
    rcases o4 with _ | ⟨e4, n4⟩ <;> rcases o5 with _ | e5 <;>
    rcases o6 with _ | e6 <;>
    simp_all [CopyFile, chmodFS, writeBytes, openDstTrunc]

/-- C8 witness: a concrete copy from a to b leaves the unrelated path c
(and the source a) unchanged. -/
theorem copyFile_C8_witness :
    (CopyFile envOK fsA "a" "b").2.1 "c" = fsA "c"
    ∧ (CopyFile envOK fsA "a" "b").2.1 "a" = fsA "a" :=
  ⟨copyFile_C8_frame envOK fsA "a" "b" "c" (by decide),
   copyFile_C8_frame envOK fsA "a" "b" "a" (by decide)⟩

/-- C10: the results of the deferred closes are discarded — `CopyFile`
is entirely independent of the injected close errors, and a concrete
call whose closes both fail still reports success. -/
theorem copyFile_C10_close_errors_ignored (env : Env) (fs : FS)
    (s d : String) (e1 e2 : Option Nat) :
    CopyFile { env with closeSrcErr := e1, closeDstErr := e2 } fs s d
      = CopyFile env fs s d
    ∧ (CopyFile envCloseFail fsA "a" "b").1 = .ok () := by
  obtain ⟨o1, o2, o3, o4, o5, o6, c1, c2, u⟩ := env
  exact ⟨rfl, rfl⟩
